import Mathlib

set_option maxHeartbeats 1000000

namespace Psqlextra

/-- Python values that flow through the schema editor's dynamic interfaces:
SQL parameter values, the model attributes `partitioning_method` and
`partitioning_key` (psqlextra/backend/schema.py:245-246), and the arguments
captured by the execute interceptor. -/
inductive PyVal where
  | int (n : Int)
  | str (s : String)
  | none
  | list (xs : List PyVal)


/-- Python truthiness, as tested by `if not partitioning_method or not
partitioning_key` (schema.py:248): None, 0, the empty string and the empty
list are falsy. -/
def truthy : PyVal → Bool
  | PyVal.none => false
  | PyVal.int n => n != 0
  | PyVal.str s => s != ""
  | PyVal.list xs => !xs.isEmpty

/-- Modelled from the spec: `PostgresPartitioningMethod` (psqlextra.types, not
under src/) is a string-valued enumeration with the two members RANGE =
"range" and LIST = "list".  `methodValue v` returns the member's string value
when `v in PostgresPartitioningMethod` holds (schema.py:257) and `Option.none`
otherwise. -/
def methodValue : PyVal → Option String
  | PyVal.str s => if s == "range" || s == "list" then some s else Option.none
  | _ => Option.none

/-- The model/descriptor metadata consumed by the schema editor: the model
class name (`model.__name__`), the table name (`model._meta.db_table`), the
primary-key field name (`model._meta.pk.name`), the names of the fields that
`model._meta.get_field` resolves, and the two partitioning attributes read
with `getattr(model, ..., None)` (schema.py:245-246). -/
structure Model where
  name : String
  dbTable : String
  pkName : String
  fields : List String
  partitioningMethod : PyVal
  partitioningKey : PyVal


/-- `model._meta.get_field(field_name)` succeeds exactly when the value is a
string naming a known field; any other value raises FieldDoesNotExist
(schema.py:276-278). -/
def resolvesField (m : Model) : PyVal → Bool
  | PyVal.str s => m.fields.contains s
  | _ => false

/-- The ImproperlyConfigured variants raised by
`_partitioning_properties_for_model` (schema.py:248-287), each carrying the
data interpolated into its message: the model's `__name__` and, for the bad
method, the method value, and for the unknown-field case, the whole
`partitioning_key` attribute (the source formats the entire key into the
message, schema.py:286). -/
inductive ConfigErr where
  | notSet (modelName : String)
  | badMethod (modelName : String) (method : PyVal)
  | keyNotList (modelName : String)
  | badField (modelName : String) (key : PyVal)


/-- Exceptions that can propagate out of the schema-editor operations. -/
inductive Err where
  | improperlyConfigured (c : ConfigErr)
  | handlerErr (tag : String)
  | valueError (msg : String)
  | typeError (msg : String)


/-- Embeds the static method `_partitioning_properties_for_model`
(schema.py:233-289).  Checks in source order: both attributes truthy
(schema.py:248), the method a member of PostgresPartitioningMethod
(schema.py:257), the key a list (schema.py:266), every element of the key a
resolvable field name (schema.py:276-278, where the first FieldDoesNotExist
aborts the loop and is reported with the whole key).  Returns the method's
string value and the key's elements. -/
def _partitioning_properties_for_model (m : Model) :
    Except Err (String × List PyVal) :=
  if !(truthy m.partitioningMethod && truthy m.partitioningKey) then
    Except.error (Err.improperlyConfigured (ConfigErr.notSet m.name))
  else
    match methodValue m.partitioningMethod with
    | Option.none =>
        Except.error (Err.improperlyConfigured
          (ConfigErr.badMethod m.name m.partitioningMethod))
    | Option.some sm =>
        match m.partitioningKey with
        | PyVal.list ks =>
            if ks.all (resolvesField m) then Except.ok (sm, ks)
            else
              Except.error (Err.improperlyConfigured
                (ConfigErr.badField m.name (PyVal.list ks)))
        | _ =>
            Except.error (Err.improperlyConfigured
              (ConfigErr.keyNotList m.name))

/-- Python str.join with a separator, as used for the comma-joined quoted key
columns (schema.py:65-67) and the placeholder list (schema.py:143). -/
def strJoin (sep : String) : List String → String
  | [] => ""
  | [x] => x
  | x :: xs => x ++ sep ++ strJoin sep xs

/-- Python str.replace on character lists: replaces every non-overlapping
occurrence of `pat`, scanning left to right, as `sql.replace(" PRIMARY KEY",
"")` does (schema.py:70).  The fuel argument starts at the length of the
text, which suffices because every step consumes at least one character; it
only keeps the recursion structural.  The single pattern used in this file is
non-empty, so the empty-pattern branch (where Python would interleave the
replacement) is never taken. -/
def replaceFuel (pat rep : List Char) : Nat → List Char → List Char
  | _, [] => []
  | 0, s => s
  | Nat.succ fuel, c :: rest =>
      if pat.isPrefixOf (c :: rest) && !pat.isEmpty then
        rep ++ replaceFuel pat rep fuel ((c :: rest).drop pat.length)
      else c :: replaceFuel pat rep fuel rest

/-- Python s.replace(pat, rep) for a non-empty pattern. -/
def pyReplace (s pat rep : String) : String :=
  String.mk (replaceFuel pat.data rep.data s.data.length s.data)

/-- Python sql[:-1] (schema.py:71): the string without its last character. -/
def pyDropLast (s : String) : String := String.mk s.data.dropLast

/-- Python str.upper, as in `partitioning_method.upper()` (schema.py:79). -/
def pyUpper (s : String) : String := String.mk (s.data.map Char.toUpper)

/-- Modelled from the spec: the session's quote_identifier capability
(`self.quote_name`, supplied by the external engine): wraps the identifier in
double quotes. -/
def quote_name (s : String) : String := "\"" ++ s ++ "\""

/-- Python str() of a value, as applied by the %-formatting inside the
identifier-quoting capability.  Every value this module quotes is a
field-name string of a validated partitioning key (resolvesField admits only
strings), so the rendering of the aggregate variants is unreachable from the
operations below. -/
def pyToString : PyVal → String
  | PyVal.int n => toString n
  | PyVal.str s => s
  | PyVal.none => "None"
  | PyVal.list _ => "[...]"

/-- What the mutable `execute` slot of the schema editor currently holds:
either the real execute capability inherited from the base editor, or the
capturing `_intercept` closure installed by `_extract_sql` (schema.py:226). -/
inductive ExecTarget where
  | real
  | intercept
deriving DecidableEq

/-- The observable state of a PostgresSchemaEditor session: the current value
of `self.execute`; the value each side effect captured into
`side_effect.execute` at construction (schema.py:41 stores the then-current,
real, bound method); the `intercepted_args` list of the interceptor
(schema.py:221); and the trace of statements that reached the real execute
capability, each recorded as (sql, params) with the default `params=()`
rendered as the empty list. -/
structure Editor where
  executeTarget : ExecTarget
  sideEffectExecute : ExecTarget
  interceptedArgs : List PyVal
  realExecuted : List (PyVal × PyVal)

/-- The session state right after `__init__` (schema.py:37-44): `self.execute`
is the real capability and every side effect's injected execute slot holds
that same real capability. -/
def initEditor : Editor :=
  { executeTarget := ExecTarget.real, sideEffectExecute := ExecTarget.real,
    interceptedArgs := [], realExecuted := [] }

/-- Stateful computations over an editor session that can raise a Python
exception.  The state at the moment an exception propagates is retained,
because Python exceptions do not undo attribute mutations. -/
def SE (α : Type) : Type := Editor → Except Err α × Editor

def SE.pure {α : Type} (a : α) : SE α := fun s => (Except.ok a, s)

def SE.bind {α β : Type} (x : SE α) (f : α → SE β) : SE β := fun s =>
  match x s with
  | (Except.ok a, s1) => f a s1
  | (Except.error e, s1) => (Except.error e, s1)

instance : Monad SE where
  pure := SE.pure
  bind := SE.bind

def SE.throw {α : Type} (e : Err) : SE α := fun s => (Except.error e, s)

/-- Calling a stored execute capability with positional arguments.  The real
capability has signature execute(sql, params=()) and appends one statement to
the database trace; the interceptor `_intercept(*args)` extends
`intercepted_args` with its arguments instead of executing anything
(schema.py:223-224). -/
def execDispatch (t : ExecTarget) (args : List PyVal) : SE Unit := fun s =>
  match t with
  | ExecTarget.intercept =>
      (Except.ok (), { s with interceptedArgs := s.interceptedArgs ++ args })
  | ExecTarget.real =>
      match args with
      | [sql] =>
          (Except.ok (),
            { s with realExecuted := s.realExecuted ++ [(sql, PyVal.list [])] })
      | [sql, ps] =>
          (Except.ok (), { s with realExecuted := s.realExecuted ++ [(sql, ps)] })
      | _ => (Except.error (Err.typeError "execute takes one or two arguments"), s)

/-- A call through `self.execute`: reads whatever the editor's execute slot
currently holds. -/
def selfExecute (args : List PyVal) : SE Unit := fun s =>
  execDispatch s.executeTarget args s

/-- A call through a handler's `self.execute`: the capability injected at
construction (schema.py:41) and never reassigned afterwards, so it does not
follow later reassignments of the session's own slot. -/
def sideEffectExec (args : List PyVal) : SE Unit := fun s =>
  execDispatch s.sideEffectExecute args s

/-- One step a side-effect handler hook performs.  Modelled from the spec:
handlers issue their own DDL through the execute capability they were given,
and a handler may raise during a hook. -/
inductive HookAct where
  | exec (sql params : PyVal)
  | raiseErr (e : Err)

/-- A side-effect handler (the HStore handlers of side_effects.py are not
under src/).  Modelled from the spec: a handler implements one hook per
mutation operation; each hook is summarised by the sequence of steps it
performs for the given arguments.  Fields are model plus, where applicable,
field name, old/new table or field names, and the strict flag. -/
structure SideEffect where
  create_model : Model → List HookAct
  delete_model : Model → List HookAct
  alter_db_table : Model → String → String → List HookAct
  add_field : Model → String → List HookAct
  remove_field : Model → String → List HookAct
  alter_field : Model → String → String → Bool → List HookAct

def runAct : HookAct → SE Unit
  | HookAct.exec sql ps => sideEffectExec [sql, ps]
  | HookAct.raiseErr e => SE.throw e

def runActs : List HookAct → SE Unit
  | [] => SE.pure ()
  | a :: rest => SE.bind (runAct a) (fun _ => runActs rest)

/-- The dispatch loop `for side_effect in self.side_effects: ...`: run the
given hook of every handler in list order, stopping at the first
exception. -/
def runSideEffects : List (List HookAct) → SE Unit
  | [] => SE.pure ()
  | h :: t => SE.bind (runActs h) (fun _ => runSideEffects t)

/-- Modelled from the spec: the external base schema engine (base_impl, not
under src/).  Each base mutation operation executes exactly one statement
through `self.execute`; for create_model that statement is the pure
emit_create_table pair (sql, params). -/
structure BaseEngine where
  tableSql : Model → String × List PyVal
  deleteSql : Model → String × List PyVal
  alterDbTableSql : Model → String → String → String × List PyVal
  addFieldSql : Model → String → String × List PyVal
  removeFieldSql : Model → String → String × List PyVal
  alterFieldSql : Model → String → String → Bool → String × List PyVal

/-- A base-engine operation issues its statement through the session's
current execute slot (the base class always calls `self.execute`). -/
def baseExec (p : String × List PyVal) : SE Unit :=
  selfExecute [PyVal.str p.1, PyVal.list p.2]

/-- Embeds create_model (schema.py:46-52): delegate to the base engine first,
then run every handler's create_model hook in registration order. -/
def create_model (eng : BaseEngine) (ses : List SideEffect) (m : Model) :
    SE Unit :=
  SE.bind (baseExec (eng.tableSql m))
    (fun _ => runSideEffects (ses.map (fun se => se.create_model m)))

/-- Embeds delete_model (schema.py:163-169): run every handler's delete_model
hook in registration order first, then delegate to the base engine. -/
def delete_model (eng : BaseEngine) (ses : List SideEffect) (m : Model) :
    SE Unit :=
  SE.bind (runSideEffects (ses.map (fun se => se.delete_model m)))
    (fun _ => baseExec (eng.deleteSql m))

/-- Embeds alter_db_table (schema.py:171-179): base engine first, then the
handlers in registration order. -/
def alter_db_table (eng : BaseEngine) (ses : List SideEffect) (m : Model)
    (old_db_table new_db_table : String) : SE Unit :=
  SE.bind (baseExec (eng.alterDbTableSql m old_db_table new_db_table))
    (fun _ =>
      runSideEffects (ses.map (fun se => se.alter_db_table m old_db_table new_db_table)))

/-- Embeds add_field (schema.py:181-187): base engine first, then the
handlers in registration order. -/
def add_field (eng : BaseEngine) (ses : List SideEffect) (m : Model)
    (field : String) : SE Unit :=
  SE.bind (baseExec (eng.addFieldSql m field))
    (fun _ => runSideEffects (ses.map (fun se => se.add_field m field)))

/-- Embeds remove_field (schema.py:189-195): the handlers in registration
order first, then the base engine. -/
def remove_field (eng : BaseEngine) (ses : List SideEffect) (m : Model)
    (field : String) : SE Unit :=
  SE.bind (runSideEffects (ses.map (fun se => se.remove_field m field)))
    (fun _ => baseExec (eng.removeFieldSql m field))

/-- Embeds alter_field (schema.py:197-209): base engine first, then the
handlers in registration order. -/
def alter_field (eng : BaseEngine) (ses : List SideEffect) (m : Model)
    (old_field new_field : String) (strict : Bool) : SE Unit :=
  SE.bind (baseExec (eng.alterFieldSql m old_field new_field strict))
    (fun _ =>
      runSideEffects (ses.map (fun se => se.alter_field m old_field new_field strict)))

/-- Embeds _extract_sql (schema.py:211-231): save the current execute
capability (copy.deepcopy of the bound method, modelled as saving the
capability value), install the capturing interceptor with a fresh
intercepted_args list, call the wrapped method, and on normal return restore
the saved capability and return the captured arguments.  When the wrapped
call raises, the exception propagates with no restoration, exactly as in the
source, which wraps nothing in try/finally. -/
def _extract_sql (method : SE Unit) : SE (List PyVal) := fun s =>
  let original_execute_func := s.executeTarget
  let s1 : Editor :=
    { s with executeTarget := ExecTarget.intercept, interceptedArgs := [] }
  match method s1 with
  | (Except.ok _, s2) =>
      (Except.ok s2.interceptedArgs,
        { s2 with executeTarget := original_execute_func })
  | (Except.error e, s2) => (Except.error e, s2)

/-- The class template sql_partition_by (schema.py:23) after Python
%-formatting (schema.py:78-81). -/
def sql_partition_by (method cols : String) : String :=
  " PARTITION BY " ++ method ++ " (" ++ cols ++ ")"

/-- The class template sql_add_default_partition (schema.py:24) after
%-formatting (schema.py:156-159). -/
def sql_add_default_partition (name parent : String) : String :=
  "CREATE TABLE " ++ name ++ " PARTITION OF " ++ parent ++ " DEFAULT"

/-- The class template sql_add_range_partition (schema.py:25-27) after
%-formatting (schema.py:111-116). -/
def sql_add_range_partition (name parent lowPh highPh : String) : String :=
  "CREATE TABLE " ++ name ++ " PARTITION OF " ++ parent ++
    " FOR VALUES FROM (" ++ lowPh ++ ") TO (" ++ highPh ++ ")"

/-- The class template sql_add_list_partition (schema.py:28-30) after
%-formatting (schema.py:140-144). -/
def sql_add_list_partition (name parent phs : String) : String :=
  "CREATE TABLE " ++ name ++ " PARTITION OF " ++ parent ++
    " FOR VALUES IN (" ++ phs ++ ")"

/-- Embeds create_partitioned_model (schema.py:54-83): validate, capture the
base create statement via _extract_sql(self.create_model, model), strip every
occurrence of " PRIMARY KEY", splice the composite primary key in before the
closing parenthesis, append the PARTITION BY clause with the upper-cased
method, and execute the result with the captured parameters.  The
destructuring `sql, params = ...` raises ValueError unless exactly two values
were captured, and `.replace` requires the first captured value to be a
string. -/
def create_partitioned_model (eng : BaseEngine) (ses : List SideEffect)
    (m : Model) : SE Unit :=
  match _partitioning_properties_for_model m with
  | Except.error e => SE.throw e
  | Except.ok (partitioning_method, partitioning_key) =>
    SE.bind (_extract_sql (create_model eng ses m)) (fun captured =>
      match captured with
      | [PyVal.str sql, params] =>
          let partitioning_key_sql := strJoin ", "
            (partitioning_key.map (fun f => quote_name (pyToString f)))
          let sql1 := pyReplace sql " PRIMARY KEY" ""
          let sql2 := pyDropLast sql1 ++ ", PRIMARY KEY (" ++
            quote_name m.pkName ++ ", " ++ partitioning_key_sql ++ "))"
          let sql3 := sql2 ++
            sql_partition_by (pyUpper partitioning_method) partitioning_key_sql
          selfExecute [PyVal.str sql3, params]
      | [_, _] => SE.throw (Err.typeError "sql is not a string")
      | _ => SE.throw (Err.valueError "expected a captured (sql, params) pair"))

/-- Embeds add_range_partition (schema.py:85-118): validate, format the range
template with the quoted partition name, the quoted parent table and two
literal "%s" placeholders, and execute with the tuple (from_values,
to_values) as bound parameters. -/
def add_range_partition (m : Model) (name : String)
    (from_values to_values : PyVal) : SE Unit :=
  match _partitioning_properties_for_model m with
  | Except.error e => SE.throw e
  | Except.ok _ =>
      let sql := sql_add_range_partition (quote_name name)
        (quote_name m.dbTable) "%s" "%s"
      selfExecute [PyVal.str sql, PyVal.list [from_values, to_values]]

/-- Embeds add_list_partition (schema.py:120-146): validate, format the list
template with one "%s" placeholder per value joined by commas, and execute
with the values as bound parameters. -/
def add_list_partition (m : Model) (name : String) (values : List PyVal) :
    SE Unit :=
  match _partitioning_properties_for_model m with
  | Except.error e => SE.throw e
  | Except.ok _ =>
      let sql := sql_add_list_partition (quote_name name)
        (quote_name m.dbTable)
        (strJoin "," (List.replicate values.length "%s"))
      selfExecute [PyVal.str sql, PyVal.list values]

/-- Embeds add_default_partition (schema.py:148-161): validate, format the
default template, and execute it with no parameter argument. -/
def add_default_partition (m : Model) (name : String) : SE Unit :=
  match _partitioning_properties_for_model m with
  | Except.error e => SE.throw e
  | Except.ok _ =>
      selfExecute
        [PyVal.str (sql_add_default_partition (quote_name name) (quote_name m.dbTable))]

/-- Whether a hook runs to completion without raising. -/
def actsOk : List HookAct → Bool
  | [] => true
  | HookAct.exec _ _ :: rest => actsOk rest
  | HookAct.raiseErr _ :: _ => false

/-- The statements a hook issues through its execute capability, in order. -/
def stmtsOf : List HookAct → List (PyVal × PyVal)
  | [] => []
  | HookAct.exec q p :: rest => (q, p) :: stmtsOf rest
  | HookAct.raiseErr _ :: rest => stmtsOf rest

/-- Whether every hook in a dispatch sequence runs without raising. -/
def hooksOk : List (List HookAct) → Bool
  | [] => true
  | h :: t => actsOk h && hooksOk t

/-- The statements a dispatch sequence issues, hooks in list order. -/
def hookTrace : List (List HookAct) → List (PyVal × PyVal)
  | [] => []
  | h :: t => stmtsOf h ++ hookTrace t

/-- The statement create_partitioned_model builds out of the captured base
create statement (schema.py:65-81): every " PRIMARY KEY" occurrence removed,
the composite primary key spliced in before the closing parenthesis, and the
PARTITION BY clause appended. -/
def partitionedSql (baseSql pkName sm : String) (ks : List PyVal) : String :=
  let pksql := strJoin ", " (ks.map (fun f => quote_name (pyToString f)))
  pyDropLast (pyReplace baseSql " PRIMARY KEY" "") ++ ", PRIMARY KEY (" ++
    quote_name pkName ++ ", " ++ pksql ++ "))" ++
    sql_partition_by (pyUpper sm) pksql

/-- The number of bind-parameter placeholders in a statement, counted as
occurrences of the percent character; every placeholder this module emits is
the two-character sequence composed of a percent sign and the letter s. -/
def pctCount (s : String) : Nat := s.data.count '%'

/-- A base engine for the concrete witnesses and counterexamples below. -/
def engW : BaseEngine :=
  { tableSql := fun m =>
      ("CREATE TABLE " ++ quote_name m.dbTable ++ " (" ++ quote_name m.pkName ++
        " integer PRIMARY KEY)", []),
    deleteSql := fun m => ("DROP TABLE " ++ quote_name m.dbTable, []),
    alterDbTableSql := fun _ o n =>
      ("ALTER TABLE " ++ quote_name o ++ " RENAME TO " ++ quote_name n, []),
    addFieldSql := fun m f =>
      ("ALTER TABLE " ++ quote_name m.dbTable ++ " ADD COLUMN " ++ quote_name f, []),
    removeFieldSql := fun m f =>
      ("ALTER TABLE " ++ quote_name m.dbTable ++ " DROP COLUMN " ++ quote_name f, []),
    alterFieldSql := fun m o n _ =>
      ("ALTER TABLE " ++ quote_name m.dbTable ++ " ALTER COLUMN " ++ quote_name o ++
        " TYPE " ++ quote_name n, []) }

/-- A validly configured range-partitioned model on table "parent". -/
def mW : Model :=
  { name := "MyTable", dbTable := "parent", pkName := "id",
    fields := ["id", "ts"],
    partitioningMethod := PyVal.str "range",
    partitioningKey := PyVal.list [PyVal.str "ts"] }

/-- A validly configured list-partitioned model. -/
def mList : Model :=
  { name := "LTable", dbTable := "ltable", pkName := "id",
    fields := ["id", "cat"],
    partitioningMethod := PyVal.str "list",
    partitioningKey := PyVal.list [PyVal.str "cat"] }

/-- A validly configured model whose partitioning key contains its own
primary-key column. -/
def mDup : Model :=
  { name := "Dup", dbTable := "dup", pkName := "id", fields := ["id"],
    partitioningMethod := PyVal.str "range",
    partitioningKey := PyVal.list [PyVal.str "id"] }

/-- A model whose two-field partitioning key names one unknown field. -/
def mBadField : Model :=
  { name := "Foo", dbTable := "foo_table", pkName := "id",
    fields := ["id", "created"],
    partitioningMethod := PyVal.str "range",
    partitioningKey := PyVal.list [PyVal.str "created", PyVal.str "bogus"] }

/-- A model whose partitioning_key attribute is present but an empty list. -/
def mEmptyKey : Model :=
  { name := "Empty", dbTable := "empty_t", pkName := "id",
    fields := ["id", "ts"],
    partitioningMethod := PyVal.str "range",
    partitioningKey := PyVal.list [] }

/-- A handler whose hooks all do nothing (as the HStore handlers do for a
model without hstore fields). -/
def noopSE : SideEffect :=
  { create_model := fun _ => [], delete_model := fun _ => [],
    alter_db_table := fun _ _ _ => [], add_field := fun _ _ => [],
    remove_field := fun _ _ => [], alter_field := fun _ _ _ _ => [] }

/-- A handler each of whose hooks issues one tagged statement, to observe
invocation order. -/
def tagSE (tag : String) : SideEffect :=
  { create_model := fun _ =>
      [HookAct.exec (PyVal.str (tag ++ ":create_model")) (PyVal.list [])],
    delete_model := fun _ =>
      [HookAct.exec (PyVal.str (tag ++ ":delete_model")) (PyVal.list [])],
    alter_db_table := fun _ _ _ =>
      [HookAct.exec (PyVal.str (tag ++ ":alter_db_table")) (PyVal.list [])],
    add_field := fun _ _ =>
      [HookAct.exec (PyVal.str (tag ++ ":add_field")) (PyVal.list [])],
    remove_field := fun _ _ =>
      [HookAct.exec (PyVal.str (tag ++ ":remove_field")) (PyVal.list [])],
    alter_field := fun _ _ _ _ =>
      [HookAct.exec (PyVal.str (tag ++ ":alter_field")) (PyVal.list [])] }

/-- A handler each of whose hooks raises immediately. -/
def raisingSE : SideEffect :=
  { create_model := fun _ => [HookAct.raiseErr (Err.handlerErr "boom")],
    delete_model := fun _ => [HookAct.raiseErr (Err.handlerErr "boom")],
    alter_db_table := fun _ _ _ => [HookAct.raiseErr (Err.handlerErr "boom")],
    add_field := fun _ _ => [HookAct.raiseErr (Err.handlerErr "boom")],
    remove_field := fun _ _ => [HookAct.raiseErr (Err.handlerErr "boom")],
    alter_field := fun _ _ _ _ => [HookAct.raiseErr (Err.handlerErr "boom")] }

/-- A handler whose create_model hook issues one statement through its
injected execute capability (as the HStore uniqueness handler issues a
CREATE UNIQUE INDEX when the model declares a unique hstore key). -/
def indexSE : SideEffect :=
  { create_model := fun m =>
      [HookAct.exec (PyVal.str ("CREATE UNIQUE INDEX ON " ++ quote_name m.dbTable))
        (PyVal.list [])],
    delete_model := fun _ => [], alter_db_table := fun _ _ _ => [],
    add_field := fun _ _ => [], remove_field := fun _ _ => [],
    alter_field := fun _ _ _ _ => [] }

/-- A model with neither partitioning attribute set. -/
def mNoAttrs : Model :=
  { name := "NoAttrs", dbTable := "no_attrs", pkName := "id",
    fields := ["id", "ts"],
    partitioningMethod := PyVal.none, partitioningKey := PyVal.none }

/-- A model whose partitioning method is not a member of the enumeration. -/
def mBadMethod : Model :=
  { name := "BadMethod", dbTable := "bad_method", pkName := "id",
    fields := ["id", "ts"],
    partitioningMethod := PyVal.str "hash",
    partitioningKey := PyVal.list [PyVal.str "ts"] }

/-- A model whose partitioning key is a bare string instead of a list. -/
def mKeyNotList : Model :=
  { name := "KeyNotList", dbTable := "key_not_list", pkName := "id",
    fields := ["id", "ts"],
    partitioningMethod := PyVal.str "range",
    partitioningKey := PyVal.str "ts" }

theorem SE.bind_ok {α β : Type} {x : SE α} {f : α → SE β} {s s1 : Editor}
    {a : α} (h : x s = (Except.ok a, s1)) : SE.bind x f s = f a s1 := by
  simp [SE.bind, h]

theorem SE.bind_error {α β : Type} {x : SE α} {f : α → SE β} {s s1 : Editor}
    {e : Err} (h : x s = (Except.error e, s1)) :
    SE.bind x f s = (Except.error e, s1) := by
  simp [SE.bind, h]

theorem baseExec_real (p : String × List PyVal) (s : Editor)
    (h : s.executeTarget = ExecTarget.real) :
    baseExec p s =
      (Except.ok (),
       { s with realExecuted :=
          s.realExecuted ++ [(PyVal.str p.1, PyVal.list p.2)] }) := by
  simp [baseExec, selfExecute, h, execDispatch]

theorem baseExec_intercept (p : String × List PyVal) (s : Editor)
    (h : s.executeTarget = ExecTarget.intercept) :
    baseExec p s =
      (Except.ok (),
       { s with interceptedArgs :=
          s.interceptedArgs ++ [PyVal.str p.1, PyVal.list p.2] }) := by
  simp [baseExec, selfExecute, h, execDispatch]

theorem runActs_ok (acts : List HookAct) (s : Editor)
    (hse : s.sideEffectExecute = ExecTarget.real) (hok : actsOk acts = true) :
    runActs acts s =
      (Except.ok (), { s with realExecuted := s.realExecuted ++ stmtsOf acts }) := by
  induction acts generalizing s with
  | nil => simp [runActs, SE.pure, stmtsOf]
  | cons a rest ih =>
    cases a with
    | raiseErr e => simp [actsOk] at hok
    | exec q p =>
      have h1 : runAct (HookAct.exec q p) s =
          (Except.ok (), { s with realExecuted := s.realExecuted ++ [(q, p)] }) := by
        simp [runAct, sideEffectExec, hse, execDispatch]
      have hok2 : actsOk rest = true := hok
      rw [show runActs (HookAct.exec q p :: rest) =
            SE.bind (runAct (HookAct.exec q p)) (fun _ => runActs rest) from rfl,
          SE.bind_ok h1,
          ih { s with realExecuted := s.realExecuted ++ [(q, p)] } hse hok2]
      simp [stmtsOf]

theorem runActs_raise (pre : List HookAct) (e : Err) (post : List HookAct)
    (s : Editor) (hse : s.sideEffectExecute = ExecTarget.real)
    (hok : actsOk pre = true) :
    runActs (pre ++ HookAct.raiseErr e :: post) s =
      (Except.error e, { s with realExecuted := s.realExecuted ++ stmtsOf pre }) := by
  induction pre generalizing s with
  | nil => simp [runActs, runAct, SE.throw, SE.bind, stmtsOf]
  | cons a rest ih =>
    cases a with
    | raiseErr e2 => simp [actsOk] at hok
    | exec q p =>
      have h1 : runAct (HookAct.exec q p) s =
          (Except.ok (), { s with realExecuted := s.realExecuted ++ [(q, p)] }) := by
        simp [runAct, sideEffectExec, hse, execDispatch]
      have hok2 : actsOk rest = true := hok
      rw [show runActs ((HookAct.exec q p :: rest) ++ HookAct.raiseErr e :: post) =
            SE.bind (runAct (HookAct.exec q p))
              (fun _ => runActs (rest ++ HookAct.raiseErr e :: post)) from rfl,
          SE.bind_ok h1,
          ih { s with realExecuted := s.realExecuted ++ [(q, p)] } hse hok2]
      simp [stmtsOf]

theorem runSideEffects_ok (hooks : List (List HookAct)) (s : Editor)
    (hse : s.sideEffectExecute = ExecTarget.real) (hok : hooksOk hooks = true) :
    runSideEffects hooks s =
      (Except.ok (), { s with realExecuted := s.realExecuted ++ hookTrace hooks }) := by
  induction hooks generalizing s with
  | nil => simp [runSideEffects, SE.pure, hookTrace]
  | cons h t ih =>
    have hparts := (Bool.and_eq_true _ _).mp hok
    rw [show runSideEffects (h :: t) =
          SE.bind (runActs h) (fun _ => runSideEffects t) from rfl,
        SE.bind_ok (runActs_ok h s hse hparts.1),
        ih { s with realExecuted := s.realExecuted ++ stmtsOf h } hse hparts.2]
    simp [hookTrace]

theorem runSideEffects_raise (okHooks : List (List HookAct)) (pre : List HookAct)
    (e : Err) (post : List HookAct) (rest : List (List HookAct)) (s : Editor)
    (hse : s.sideEffectExecute = ExecTarget.real)
    (hok1 : hooksOk okHooks = true) (hok2 : actsOk pre = true) :
    runSideEffects (okHooks ++ (pre ++ HookAct.raiseErr e :: post) :: rest) s =
      (Except.error e,
       { s with realExecuted :=
          s.realExecuted ++ hookTrace okHooks ++ stmtsOf pre }) := by
  induction okHooks generalizing s with
  | nil =>
    rw [List.nil_append,
        show runSideEffects ((pre ++ HookAct.raiseErr e :: post) :: rest) =
          SE.bind (runActs (pre ++ HookAct.raiseErr e :: post))
            (fun _ => runSideEffects rest) from rfl,
        SE.bind_error (runActs_raise pre e post s hse hok2)]
    simp [hookTrace]
  | cons h t ih =>
    have hparts := (Bool.and_eq_true _ _).mp hok1
    rw [show runSideEffects ((h :: t) ++ (pre ++ HookAct.raiseErr e :: post) :: rest) =
          SE.bind (runActs h)
            (fun _ => runSideEffects (t ++ (pre ++ HookAct.raiseErr e :: post) :: rest))
          from rfl,
        SE.bind_ok (runActs_ok h s hse hparts.1),
        ih { s with realExecuted := s.realExecuted ++ stmtsOf h } hse hparts.2]
    simp [hookTrace]

theorem validation_ok_spec (m : Model) (sm : String) (ks : List PyVal)
    (h : _partitioning_properties_for_model m = Except.ok (sm, ks)) :
    m.partitioningKey = PyVal.list ks ∧ ks ≠ [] ∧
      methodValue m.partitioningMethod = some sm ∧
      ks.all (resolvesField m) = true := by
  unfold _partitioning_properties_for_model at h
  split at h
  · simp at h
  · rename_i hA
    split at h
    · simp at h
    · rename_i sm2 hm
      split at h
      · rename_i ks2 hk
        split at h
        · rename_i hall
          obtain ⟨hsm, hks⟩ : sm2 = sm ∧ ks2 = ks := by simpa using h
          subst hsm; subst hks
          have hA2 : truthy m.partitioningKey = true := by
            have : (truthy m.partitioningMethod && truthy m.partitioningKey) = true := by
              simpa using hA
            exact ((Bool.and_eq_true _ _).mp this).2
          refine ⟨hk, ?_, hm, hall⟩
          intro hnil
          subst hnil
          rw [hk] at hA2
          simp [truthy] at hA2
        · simp at h
      · simp at h

theorem validation_notSet (m : Model)
    (h : truthy m.partitioningMethod = false ∨ truthy m.partitioningKey = false) :
    _partitioning_properties_for_model m =
      Except.error (Err.improperlyConfigured (ConfigErr.notSet m.name)) := by
  unfold _partitioning_properties_for_model
  rcases h with h | h <;> simp [h]

theorem validation_badMethod (m : Model)
    (h1 : truthy m.partitioningMethod = true)
    (h2 : truthy m.partitioningKey = true)
    (h3 : methodValue m.partitioningMethod = Option.none) :
    _partitioning_properties_for_model m =
      Except.error (Err.improperlyConfigured
        (ConfigErr.badMethod m.name m.partitioningMethod)) := by
  unfold _partitioning_properties_for_model
  simp [h1, h2, h3]

theorem validation_keyNotList (m : Model)
    (h1 : truthy m.partitioningMethod = true)
    (h2 : truthy m.partitioningKey = true)
    (sm : String) (h3 : methodValue m.partitioningMethod = some sm)
    (h4 : ∀ ks : List PyVal, m.partitioningKey ≠ PyVal.list ks) :
    _partitioning_properties_for_model m =
      Except.error (Err.improperlyConfigured (ConfigErr.keyNotList m.name)) := by
  unfold _partitioning_properties_for_model
  rw [if_neg (by simp [h1, h2]), h3]
  cases hk : m.partitioningKey with
  | list ks => exact absurd hk (h4 ks)
  | int n => rfl
  | str s2 => rfl
  | none => rfl

theorem validation_badField (m : Model)
    (h1 : truthy m.partitioningMethod = true)
    (h2 : truthy m.partitioningKey = true)
    (sm : String) (h3 : methodValue m.partitioningMethod = some sm)
    (ks : List PyVal) (h4 : m.partitioningKey = PyVal.list ks)
    (h5 : ks.all (resolvesField m) = false) :
    _partitioning_properties_for_model m =
      Except.error (Err.improperlyConfigured
        (ConfigErr.badField m.name (PyVal.list ks))) := by
  have h2b : truthy (PyVal.list ks) = true := by rw [← h4]; exact h2
  unfold _partitioning_properties_for_model
  simp [h1, h2, h2b, h3, h4, h5]

theorem partition_ops_error (eng : BaseEngine) (ses : List SideEffect)
    (m : Model) (name : String) (fv tv : PyVal) (values : List PyVal)
    (s : Editor) (e : Err)
    (h : _partitioning_properties_for_model m = Except.error e) :
    create_partitioned_model eng ses m s = (Except.error e, s)
    ∧ add_range_partition m name fv tv s = (Except.error e, s)
    ∧ add_list_partition m name values s = (Except.error e, s)
    ∧ add_default_partition m name s = (Except.error e, s) := by
  refine ⟨?_, ?_, ?_, ?_⟩ <;>
    simp [create_partitioned_model, add_range_partition, add_list_partition,
      add_default_partition, h, SE.throw]

theorem add_range_ok (m : Model) (name : String) (fv tv : PyVal) (s : Editor)
    (sm : String) (ks : List PyVal)
    (hv : _partitioning_properties_for_model m = Except.ok (sm, ks))
    (ht : s.executeTarget = ExecTarget.real) :
    add_range_partition m name fv tv s =
      (Except.ok (),
       { s with realExecuted := s.realExecuted ++
          [(PyVal.str (sql_add_range_partition (quote_name name)
              (quote_name m.dbTable) "%s" "%s"),
            PyVal.list [fv, tv])] }) := by
  simp [add_range_partition, hv, selfExecute, ht, execDispatch]

theorem add_list_ok (m : Model) (name : String) (values : List PyVal)
    (s : Editor) (sm : String) (ks : List PyVal)
    (hv : _partitioning_properties_for_model m = Except.ok (sm, ks))
    (ht : s.executeTarget = ExecTarget.real) :
    add_list_partition m name values s =
      (Except.ok (),
       { s with realExecuted := s.realExecuted ++
          [(PyVal.str (sql_add_list_partition (quote_name name)
              (quote_name m.dbTable)
              (strJoin "," (List.replicate values.length "%s"))),
            PyVal.list values)] }) := by
  simp [add_list_partition, hv, selfExecute, ht, execDispatch]

theorem extract_create_model_eq (eng : BaseEngine) (ses : List SideEffect)
    (m : Model) (s : Editor)
    (hse : s.sideEffectExecute = ExecTarget.real)
    (hok : hooksOk (ses.map (fun se => se.create_model m)) = true) :
    _extract_sql (create_model eng ses m) s =
      (Except.ok [PyVal.str (eng.tableSql m).1, PyVal.list (eng.tableSql m).2],
       { s with
          interceptedArgs :=
            [PyVal.str (eng.tableSql m).1, PyVal.list (eng.tableSql m).2],
          realExecuted := s.realExecuted ++
            hookTrace (ses.map (fun se => se.create_model m)) }) := by
  have hb := baseExec_intercept (eng.tableSql m)
      { s with executeTarget := ExecTarget.intercept, interceptedArgs := [] } rfl
  simp only [List.nil_append] at hb
  have hrun := runSideEffects_ok (ses.map (fun se => se.create_model m))
      { s with
         executeTarget := ExecTarget.intercept,
         interceptedArgs :=
           [PyVal.str (eng.tableSql m).1, PyVal.list (eng.tableSql m).2] }
      hse hok
  have hcm : create_model eng ses m
      { s with executeTarget := ExecTarget.intercept, interceptedArgs := [] } =
      (Except.ok (),
       { s with
          executeTarget := ExecTarget.intercept,
          interceptedArgs :=
            [PyVal.str (eng.tableSql m).1, PyVal.list (eng.tableSql m).2],
          realExecuted := s.realExecuted ++
            hookTrace (ses.map (fun se => se.create_model m)) }) := by
    rw [show create_model eng ses m =
          SE.bind (baseExec (eng.tableSql m))
            (fun _ => runSideEffects (ses.map (fun se => se.create_model m)))
        from rfl,
        SE.bind_ok hb]
    exact hrun
  simp only [_extract_sql]
  rw [hcm]

theorem create_partitioned_model_eq (eng : BaseEngine) (ses : List SideEffect)
    (m : Model) (s : Editor) (sm : String) (ks : List PyVal)
    (hv : _partitioning_properties_for_model m = Except.ok (sm, ks))
    (ht : s.executeTarget = ExecTarget.real)
    (hse : s.sideEffectExecute = ExecTarget.real)
    (hok : hooksOk (ses.map (fun se => se.create_model m)) = true) :
    create_partitioned_model eng ses m s =
      (Except.ok (),
       { s with
          interceptedArgs :=
            [PyVal.str (eng.tableSql m).1, PyVal.list (eng.tableSql m).2],
          realExecuted := s.realExecuted ++
            hookTrace (ses.map (fun se => se.create_model m)) ++
            [(PyVal.str (partitionedSql (eng.tableSql m).1 m.pkName sm ks),
              PyVal.list (eng.tableSql m).2)] }) := by
  simp only [create_partitioned_model, hv]
  rw [SE.bind_ok (extract_create_model_eq eng ses m s hse hok)]
  simp [selfExecute, execDispatch, ht, partitionedSql, sql_partition_by]

theorem strJoin_cons (sep a b : String) (l : List String) :
    strJoin sep (a :: b :: l) = a ++ sep ++ strJoin sep (b :: l) := rfl

theorem pctCount_append (a b : String) :
    pctCount (a ++ b) = pctCount a + pctCount b := by
  simp [pctCount, String.data_append, List.count_append]

theorem pctCount_quote (x : String) : pctCount (quote_name x) = pctCount x := by
  have c0 : pctCount "\"" = 0 := rfl
  simp [quote_name, pctCount_append, c0]

theorem pctCount_placeholders (n : Nat) :
    pctCount (strJoin "," (List.replicate n "%s")) = n := by
  induction n with
  | zero => rfl
  | succ k ih =>
    cases k with
    | zero => rfl
    | succ j =>
      have p1 : pctCount "%s" = 1 := rfl
      have p2 : pctCount "," = 0 := rfl
      rw [List.replicate_succ, List.replicate_succ, strJoin_cons,
        pctCount_append, pctCount_append, ← List.replicate_succ, ih, p1, p2]
      omega

theorem pctCount_list_sql (name db : String) (n : Nat)
    (h1 : pctCount name = 0) (h2 : pctCount db = 0) :
    pctCount (sql_add_list_partition (quote_name name) (quote_name db)
      (strJoin "," (List.replicate n "%s"))) = n := by
  have c1 : pctCount "CREATE TABLE " = 0 := rfl
  have c2 : pctCount " PARTITION OF " = 0 := rfl
  have c3 : pctCount " FOR VALUES IN (" = 0 := rfl
  have c4 : pctCount ")" = 0 := rfl
  simp [sql_add_list_partition, pctCount_append, pctCount_quote, h1, h2,
    pctCount_placeholders, c1, c2, c3, c4]

theorem hooksOk_of_nil (hooks : List (List HookAct))
    (h : ∀ x ∈ hooks, x = []) : hooksOk hooks = true := by
  induction hooks with
  | nil => rfl
  | cons a t ih =>
    have ha : a = [] := h a (List.mem_cons_self a t)
    subst ha
    exact ih (fun x hx => h x (List.mem_cons_of_mem _ hx))

theorem hookTrace_of_nil (hooks : List (List HookAct))
    (h : ∀ x ∈ hooks, x = []) : hookTrace hooks = [] := by
  induction hooks with
  | nil => rfl
  | cons a t ih =>
    have ha : a = [] := h a (List.mem_cons_self a t)
    subst ha
    exact ih (fun x hx => h x (List.mem_cons_of_mem _ hx))

theorem add_default_ok (m : Model) (name : String) (s : Editor)
    (sm : String) (ks : List PyVal)
    (hv : _partitioning_properties_for_model m = Except.ok (sm, ks))
    (ht : s.executeTarget = ExecTarget.real) :
    add_default_partition m name s =
      (Except.ok (),
       { s with realExecuted := s.realExecuted ++
          [(PyVal.str (sql_add_default_partition (quote_name name)
              (quote_name m.dbTable)),
            PyVal.list [])] }) := by
  simp [add_default_partition, hv, selfExecute, ht, execDispatch]

/-- C1 counterexample: the claim fails on the exception exit path.  Invoking
the interception helper on a wrapped call that raises (here the create_model
override, whose hook chain includes a handler that raises) propagates the
exception while the session's execute slot still holds the capturing
interceptor: the original (real) capability it held on entry is not
restored, because _extract_sql restores only after a normal return
(schema.py:228-230 has no try/finally). -/
theorem c1_counterexample :
    (_extract_sql (create_model engW [raisingSE] mW) initEditor).1 =
        Except.error (Err.handlerErr "boom")
    ∧ (_extract_sql (create_model engW [raisingSE] mW) initEditor).2.executeTarget =
        ExecTarget.intercept
    ∧ initEditor.executeTarget = ExecTarget.real
    ∧ ExecTarget.intercept ≠ ExecTarget.real :=
  ⟨rfl, rfl, rfl, by decide⟩

/-- C1 (amended): _extract_sql restores the saved execute capability and
returns the captured arguments on the normal-return exit path; when the
wrapped call raises, the exception propagates with the session state exactly
as the wrapped call left it — in particular the capturing substitute, not the
original capability, remains installed. -/
theorem c1_amended (method : SE Unit) (s s2 : Editor) :
    (∀ a : Unit,
      method { s with executeTarget := ExecTarget.intercept,
                      interceptedArgs := [] } = (Except.ok a, s2) →
        _extract_sql method s =
          (Except.ok s2.interceptedArgs,
           { s2 with executeTarget := s.executeTarget }))
    ∧ (∀ e : Err,
      method { s with executeTarget := ExecTarget.intercept,
                      interceptedArgs := [] } = (Except.error e, s2) →
        _extract_sql method s = (Except.error e, s2)) := by
  constructor
  · intro a h
    simp only [_extract_sql]
    rw [h]
  · intro e h
    simp only [_extract_sql]
    rw [h]

/-- C1 amended witness: a wrapped call that returns normally gets the real
capability restored; one that raises leaves the interceptor installed. -/
theorem c1_amended_witness :
    _extract_sql (SE.pure ()) initEditor = (Except.ok [], initEditor)
    ∧ _extract_sql (SE.throw (Err.handlerErr "x")) initEditor =
        (Except.error (Err.handlerErr "x"),
         { initEditor with executeTarget := ExecTarget.intercept }) := by
  constructor
  · exact (c1_amended (SE.pure ()) initEditor
      { initEditor with executeTarget := ExecTarget.intercept }).1 () rfl
  · exact (c1_amended (SE.throw (Err.handlerErr "x")) initEditor
      { initEditor with executeTarget := ExecTarget.intercept }).2
      (Err.handlerErr "x") rfl

/-- C2 counterexample: the claim fails for SQL issued by side-effect
handlers whose hooks run inside the wrapped call.  With a registered handler
whose create_model hook issues one statement, invoking the interception
helper really executes that statement: the handler's execute slot was bound
to the original capability at construction (schema.py:41) and interception
replaces only the session's own slot.  So one call reaches the original
execute capability, not zero. -/
theorem c2_counterexample :
    (_extract_sql (create_model engW [indexSE] mW) initEditor).2.realExecuted =
        [(PyVal.str "CREATE UNIQUE INDEX ON \"parent\"", PyVal.list [])]
    ∧ ([(PyVal.str "CREATE UNIQUE INDEX ON \"parent\"", PyVal.list [])] :
        List (PyVal × PyVal)) ≠ [] :=
  ⟨rfl, by simp⟩

/-- C2 (amended): during the wrapped call, zero statements of the base
engine reach the original execute capability — the base create-table pair is
captured into intercepted_args instead — but every statement issued by a
registered handler hook inside the wrapped call goes through the capability
bound into the handler at construction and is really executed. -/
theorem c2_amended (eng : BaseEngine) (ses : List SideEffect) (m : Model)
    (s : Editor) (hse : s.sideEffectExecute = ExecTarget.real)
    (hok : hooksOk (ses.map (fun se => se.create_model m)) = true) :
    _extract_sql (create_model eng ses m) s =
      (Except.ok [PyVal.str (eng.tableSql m).1, PyVal.list (eng.tableSql m).2],
       { s with
          interceptedArgs :=
            [PyVal.str (eng.tableSql m).1, PyVal.list (eng.tableSql m).2],
          realExecuted := s.realExecuted ++
            hookTrace (ses.map (fun se => se.create_model m)) }) :=
  extract_create_model_eq eng ses m s hse hok

/-- C2 amended witness: with one statement-issuing handler registered, the
base statement is captured while the handler statement is really executed. -/
theorem c2_amended_witness :
    _extract_sql (create_model engW [indexSE] mW) initEditor =
      (Except.ok
        [PyVal.str "CREATE TABLE \"parent\" (\"id\" integer PRIMARY KEY)",
         PyVal.list []],
       { initEditor with
          interceptedArgs :=
            [PyVal.str "CREATE TABLE \"parent\" (\"id\" integer PRIMARY KEY)",
             PyVal.list []],
          realExecuted :=
            [(PyVal.str "CREATE UNIQUE INDEX ON \"parent\"", PyVal.list [])] }) :=
  c2_amended engW [indexSE] mW initEditor rfl rfl

/-- C9: the interception helper applied to the session's create-model logic
returns exactly the captured (sql, params) pair — two values, the statement
string the base engine would have executed followed by its parameter list. -/
theorem c9_captured_pair (eng : BaseEngine) (ses : List SideEffect) (m : Model)
    (s : Editor) (hse : s.sideEffectExecute = ExecTarget.real)
    (hok : hooksOk (ses.map (fun se => se.create_model m)) = true) :
    (_extract_sql (create_model eng ses m) s).1 =
      Except.ok [PyVal.str (eng.tableSql m).1, PyVal.list (eng.tableSql m).2] := by
  rw [extract_create_model_eq eng ses m s hse hok]

/-- C9 witness: the helper captures the base create-table statement and its
parameters for a concrete model. -/
theorem c9_captured_pair_witness :
    (_extract_sql (create_model engW [noopSE, noopSE] mW) initEditor).1 =
      Except.ok
        [PyVal.str "CREATE TABLE \"parent\" (\"id\" integer PRIMARY KEY)",
         PyVal.list []] :=
  c9_captured_pair engW [noopSE, noopSE] mW initEditor rfl rfl

/-- C6: for every mutation operation the side-effect handlers are invoked in
registration (list) order — their hooks' statements appear in the session
trace in that order — with delete_model and remove_field dispatching the
hooks strictly before the base-engine delegation, and create_model,
alter_db_table, add_field and alter_field dispatching them strictly after
it. -/
theorem c6_dispatch_order (eng : BaseEngine) (ses : List SideEffect)
    (m : Model) (field old_field new_field old_db new_db : String)
    (strict : Bool) (s : Editor)
    (ht : s.executeTarget = ExecTarget.real)
    (hse : s.sideEffectExecute = ExecTarget.real)
    (h1 : hooksOk (ses.map (fun se => se.create_model m)) = true)
    (h2 : hooksOk (ses.map (fun se => se.delete_model m)) = true)
    (h3 : hooksOk (ses.map (fun se => se.alter_db_table m old_db new_db)) = true)
    (h4 : hooksOk (ses.map (fun se => se.add_field m field)) = true)
    (h5 : hooksOk (ses.map (fun se => se.remove_field m field)) = true)
    (h6 : hooksOk (ses.map (fun se => se.alter_field m old_field new_field strict)) = true) :
    create_model eng ses m s =
      (Except.ok (),
       { s with
          realExecuted := s.realExecuted ++
            [(PyVal.str (eng.tableSql m).1, PyVal.list (eng.tableSql m).2)] ++
            hookTrace (ses.map (fun se => se.create_model m)) })
    ∧ delete_model eng ses m s =
      (Except.ok (),
       { s with
          realExecuted := s.realExecuted ++
            hookTrace (ses.map (fun se => se.delete_model m)) ++
            [(PyVal.str (eng.deleteSql m).1, PyVal.list (eng.deleteSql m).2)] })
    ∧ alter_db_table eng ses m old_db new_db s =
      (Except.ok (),
       { s with
          realExecuted := s.realExecuted ++
            [(PyVal.str (eng.alterDbTableSql m old_db new_db).1,
              PyVal.list (eng.alterDbTableSql m old_db new_db).2)] ++
            hookTrace (ses.map (fun se => se.alter_db_table m old_db new_db)) })
    ∧ add_field eng ses m field s =
      (Except.ok (),
       { s with
          realExecuted := s.realExecuted ++
            [(PyVal.str (eng.addFieldSql m field).1,
              PyVal.list (eng.addFieldSql m field).2)] ++
            hookTrace (ses.map (fun se => se.add_field m field)) })
    ∧ remove_field eng ses m field s =
      (Except.ok (),
       { s with
          realExecuted := s.realExecuted ++
            hookTrace (ses.map (fun se => se.remove_field m field)) ++
            [(PyVal.str (eng.removeFieldSql m field).1,
              PyVal.list (eng.removeFieldSql m field).2)] })
    ∧ alter_field eng ses m old_field new_field strict s =
      (Except.ok (),
       { s with
          realExecuted := s.realExecuted ++
            [(PyVal.str (eng.alterFieldSql m old_field new_field strict).1,
              PyVal.list (eng.alterFieldSql m old_field new_field strict).2)] ++
            hookTrace (ses.map (fun se => se.alter_field m old_field new_field strict)) }) := by
  refine ⟨?_, ?_, ?_, ?_, ?_, ?_⟩
  · rw [show create_model eng ses m =
          SE.bind (baseExec (eng.tableSql m))
            (fun _ => runSideEffects (ses.map (fun se => se.create_model m)))
        from rfl,
        SE.bind_ok (baseExec_real (eng.tableSql m) s ht),
        runSideEffects_ok (ses.map (fun se => se.create_model m))
          { s with realExecuted := s.realExecuted ++
              [(PyVal.str (eng.tableSql m).1, PyVal.list (eng.tableSql m).2)] }
          hse h1]
  · rw [show delete_model eng ses m =
          SE.bind (runSideEffects (ses.map (fun se => se.delete_model m)))
            (fun _ => baseExec (eng.deleteSql m))
        from rfl,
        SE.bind_ok (runSideEffects_ok (ses.map (fun se => se.delete_model m)) s hse h2),
        baseExec_real (eng.deleteSql m)
          { s with realExecuted := s.realExecuted ++
              hookTrace (ses.map (fun se => se.delete_model m)) } ht]
  · rw [show alter_db_table eng ses m old_db new_db =
          SE.bind (baseExec (eng.alterDbTableSql m old_db new_db))
            (fun _ => runSideEffects (ses.map (fun se => se.alter_db_table m old_db new_db)))
        from rfl,
        SE.bind_ok (baseExec_real (eng.alterDbTableSql m old_db new_db) s ht),
        runSideEffects_ok (ses.map (fun se => se.alter_db_table m old_db new_db))
          { s with realExecuted := s.realExecuted ++
              [(PyVal.str (eng.alterDbTableSql m old_db new_db).1,
                PyVal.list (eng.alterDbTableSql m old_db new_db).2)] }
          hse h3]
  · rw [show add_field eng ses m field =
          SE.bind (baseExec (eng.addFieldSql m field))
            (fun _ => runSideEffects (ses.map (fun se => se.add_field m field)))
        from rfl,
        SE.bind_ok (baseExec_real (eng.addFieldSql m field) s ht),
        runSideEffects_ok (ses.map (fun se => se.add_field m field))
          { s with realExecuted := s.realExecuted ++
              [(PyVal.str (eng.addFieldSql m field).1,
                PyVal.list (eng.addFieldSql m field).2)] }
          hse h4]
  · rw [show remove_field eng ses m field =
          SE.bind (runSideEffects (ses.map (fun se => se.remove_field m field)))
            (fun _ => baseExec (eng.removeFieldSql m field))
        from rfl,
        SE.bind_ok (runSideEffects_ok (ses.map (fun se => se.remove_field m field)) s hse h5),
        baseExec_real (eng.removeFieldSql m field)
          { s with realExecuted := s.realExecuted ++
              hookTrace (ses.map (fun se => se.remove_field m field)) } ht]
  · rw [show alter_field eng ses m old_field new_field strict =
          SE.bind (baseExec (eng.alterFieldSql m old_field new_field strict))
            (fun _ => runSideEffects (ses.map (fun se => se.alter_field m old_field new_field strict)))
        from rfl,
        SE.bind_ok (baseExec_real (eng.alterFieldSql m old_field new_field strict) s ht),
        runSideEffects_ok (ses.map (fun se => se.alter_field m old_field new_field strict))
          { s with realExecuted := s.realExecuted ++
              [(PyVal.str (eng.alterFieldSql m old_field new_field strict).1,
                PyVal.list (eng.alterFieldSql m old_field new_field strict).2)] }
          hse h6]

/-- C6 witness: with two tagged handlers registered in the order a, b, the
create_model trace is base statement, a, b, and the remove_field trace is a,
b, base statement. -/
theorem c6_dispatch_order_witness :
    create_model engW [tagSE "a", tagSE "b"] mW initEditor =
      (Except.ok (),
       { initEditor with
          realExecuted :=
            [(PyVal.str "CREATE TABLE \"parent\" (\"id\" integer PRIMARY KEY)",
              PyVal.list []),
             (PyVal.str "a:create_model", PyVal.list []),
             (PyVal.str "b:create_model", PyVal.list [])] })
    ∧ remove_field engW [tagSE "a", tagSE "b"] mW "ts" initEditor =
      (Except.ok (),
       { initEditor with
          realExecuted :=
            [(PyVal.str "a:remove_field", PyVal.list []),
             (PyVal.str "b:remove_field", PyVal.list []),
             (PyVal.str "ALTER TABLE \"parent\" DROP COLUMN \"ts\"",
              PyVal.list [])] }) := by
  have h := c6_dispatch_order engW [tagSE "a", tagSE "b"] mW "ts" "o" "n" "p" "q"
    false initEditor rfl rfl rfl rfl rfl rfl rfl rfl
  exact ⟨h.1, h.2.2.2.2.1⟩

/-- C7: a side-effect handler that raises during its hook aborts the
remaining handler chain and the enclosing mutation operation.  For
remove_field and delete_model the hooks run before the base delegation, so
the base statement never executes; for the other four operations the base
statement has already run when the handler raises, and the exception then
propagates before any later handler runs. -/
theorem c7_handler_raise_aborts (eng : BaseEngine) (ses1 : List SideEffect)
    (bad : SideEffect) (ses2 : List SideEffect) (m : Model)
    (field old_field new_field old_db new_db : String) (strict : Bool)
    (s : Editor) (e : Err) (pre post : List HookAct)
    (ht : s.executeTarget = ExecTarget.real)
    (hse : s.sideEffectExecute = ExecTarget.real)
    (hpre : actsOk pre = true) :
    (bad.remove_field m field = pre ++ HookAct.raiseErr e :: post →
      hooksOk (ses1.map (fun se => se.remove_field m field)) = true →
      remove_field eng (ses1 ++ bad :: ses2) m field s =
        (Except.error e,
         { s with
            realExecuted := s.realExecuted ++
              hookTrace (ses1.map (fun se => se.remove_field m field)) ++
              stmtsOf pre }))
    ∧ (bad.delete_model m = pre ++ HookAct.raiseErr e :: post →
      hooksOk (ses1.map (fun se => se.delete_model m)) = true →
      delete_model eng (ses1 ++ bad :: ses2) m s =
        (Except.error e,
         { s with
            realExecuted := s.realExecuted ++
              hookTrace (ses1.map (fun se => se.delete_model m)) ++
              stmtsOf pre }))
    ∧ (bad.create_model m = pre ++ HookAct.raiseErr e :: post →
      hooksOk (ses1.map (fun se => se.create_model m)) = true →
      create_model eng (ses1 ++ bad :: ses2) m s =
        (Except.error e,
         { s with
            realExecuted := s.realExecuted ++
              [(PyVal.str (eng.tableSql m).1, PyVal.list (eng.tableSql m).2)] ++
              hookTrace (ses1.map (fun se => se.create_model m)) ++
              stmtsOf pre }))
    ∧ (bad.add_field m field = pre ++ HookAct.raiseErr e :: post →
      hooksOk (ses1.map (fun se => se.add_field m field)) = true →
      add_field eng (ses1 ++ bad :: ses2) m field s =
        (Except.error e,
         { s with
            realExecuted := s.realExecuted ++
              [(PyVal.str (eng.addFieldSql m field).1,
                PyVal.list (eng.addFieldSql m field).2)] ++
              hookTrace (ses1.map (fun se => se.add_field m field)) ++
              stmtsOf pre }))
    ∧ (bad.alter_db_table m old_db new_db = pre ++ HookAct.raiseErr e :: post →
      hooksOk (ses1.map (fun se => se.alter_db_table m old_db new_db)) = true →
      alter_db_table eng (ses1 ++ bad :: ses2) m old_db new_db s =
        (Except.error e,
         { s with
            realExecuted := s.realExecuted ++
              [(PyVal.str (eng.alterDbTableSql m old_db new_db).1,
                PyVal.list (eng.alterDbTableSql m old_db new_db).2)] ++
              hookTrace (ses1.map (fun se => se.alter_db_table m old_db new_db)) ++
              stmtsOf pre }))
    ∧ (bad.alter_field m old_field new_field strict = pre ++ HookAct.raiseErr e :: post →
      hooksOk (ses1.map (fun se => se.alter_field m old_field new_field strict)) = true →
      alter_field eng (ses1 ++ bad :: ses2) m old_field new_field strict s =
        (Except.error e,
         { s with
            realExecuted := s.realExecuted ++
              [(PyVal.str (eng.alterFieldSql m old_field new_field strict).1,
                PyVal.list (eng.alterFieldSql m old_field new_field strict).2)] ++
              hookTrace (ses1.map (fun se => se.alter_field m old_field new_field strict)) ++
              stmtsOf pre })) := by
  refine ⟨?_, ?_, ?_, ?_, ?_, ?_⟩
  · intro hb hok
    rw [show remove_field eng (ses1 ++ bad :: ses2) m field =
          SE.bind (runSideEffects ((ses1 ++ bad :: ses2).map (fun se => se.remove_field m field)))
            (fun _ => baseExec (eng.removeFieldSql m field))
        from rfl,
        List.map_append, List.map_cons, hb,
        SE.bind_error (runSideEffects_raise
          (ses1.map (fun se => se.remove_field m field)) pre e post
          (ses2.map (fun se => se.remove_field m field)) s hse hok hpre)]
  · intro hb hok
    rw [show delete_model eng (ses1 ++ bad :: ses2) m =
          SE.bind (runSideEffects ((ses1 ++ bad :: ses2).map (fun se => se.delete_model m)))
            (fun _ => baseExec (eng.deleteSql m))
        from rfl,
        List.map_append, List.map_cons, hb,
        SE.bind_error (runSideEffects_raise
          (ses1.map (fun se => se.delete_model m)) pre e post
          (ses2.map (fun se => se.delete_model m)) s hse hok hpre)]
  · intro hb hok
    rw [show create_model eng (ses1 ++ bad :: ses2) m =
          SE.bind (baseExec (eng.tableSql m))
            (fun _ => runSideEffects ((ses1 ++ bad :: ses2).map (fun se => se.create_model m)))
        from rfl,
        SE.bind_ok (baseExec_real (eng.tableSql m) s ht),
        List.map_append, List.map_cons, hb,
        runSideEffects_raise (ses1.map (fun se => se.create_model m)) pre e post
          (ses2.map (fun se => se.create_model m))
          { s with realExecuted := s.realExecuted ++
              [(PyVal.str (eng.tableSql m).1, PyVal.list (eng.tableSql m).2)] }
          hse hok hpre]
  · intro hb hok
    rw [show add_field eng (ses1 ++ bad :: ses2) m field =
          SE.bind (baseExec (eng.addFieldSql m field))
            (fun _ => runSideEffects ((ses1 ++ bad :: ses2).map (fun se => se.add_field m field)))
        from rfl,
        SE.bind_ok (baseExec_real (eng.addFieldSql m field) s ht),
        List.map_append, List.map_cons, hb,
        runSideEffects_raise (ses1.map (fun se => se.add_field m field)) pre e post
          (ses2.map (fun se => se.add_field m field))
          { s with realExecuted := s.realExecuted ++
              [(PyVal.str (eng.addFieldSql m field).1,
                PyVal.list (eng.addFieldSql m field).2)] }
          hse hok hpre]
  · intro hb hok
    rw [show alter_db_table eng (ses1 ++ bad :: ses2) m old_db new_db =
          SE.bind (baseExec (eng.alterDbTableSql m old_db new_db))
            (fun _ => runSideEffects ((ses1 ++ bad :: ses2).map (fun se => se.alter_db_table m old_db new_db)))
        from rfl,
        SE.bind_ok (baseExec_real (eng.alterDbTableSql m old_db new_db) s ht),
        List.map_append, List.map_cons, hb,
        runSideEffects_raise (ses1.map (fun se => se.alter_db_table m old_db new_db)) pre e post
          (ses2.map (fun se => se.alter_db_table m old_db new_db))
          { s with realExecuted := s.realExecuted ++
              [(PyVal.str (eng.alterDbTableSql m old_db new_db).1,
                PyVal.list (eng.alterDbTableSql m old_db new_db).2)] }
          hse hok hpre]
  · intro hb hok
    rw [show alter_field eng (ses1 ++ bad :: ses2) m old_field new_field strict =
          SE.bind (baseExec (eng.alterFieldSql m old_field new_field strict))
            (fun _ => runSideEffects ((ses1 ++ bad :: ses2).map (fun se => se.alter_field m old_field new_field strict)))
        from rfl,
        SE.bind_ok (baseExec_real (eng.alterFieldSql m old_field new_field strict) s ht),
        List.map_append, List.map_cons, hb,
        runSideEffects_raise (ses1.map (fun se => se.alter_field m old_field new_field strict)) pre e post
          (ses2.map (fun se => se.alter_field m old_field new_field strict))
          { s with realExecuted := s.realExecuted ++
              [(PyVal.str (eng.alterFieldSql m old_field new_field strict).1,
                PyVal.list (eng.alterFieldSql m old_field new_field strict).2)] }
          hse hok hpre]

/-- C7 witness: a handler raising during on_remove_field aborts the chain —
the earlier handler's statement ran, the later handler and the base DROP
COLUMN never execute, and the exception propagates. -/
theorem c7_handler_raise_aborts_witness :
    remove_field engW [tagSE "a", raisingSE, tagSE "b"] mW "ts" initEditor =
      (Except.error (Err.handlerErr "boom"),
       { initEditor with
          realExecuted := [(PyVal.str "a:remove_field", PyVal.list [])] }) := by
  exact (c7_handler_raise_aborts engW [tagSE "a"] raisingSE [tagSE "b"] mW
    "ts" "o" "n" "p" "q" false initEditor (Err.handlerErr "boom") [] []
    rfl rfl rfl).1 rfl rfl

theorem append_fold_partition_by (x : String) :
    "))" ++ (" PARTITION BY " ++ x) = ")) PARTITION BY " ++ x := by
  rw [← String.append_assoc]
  have hfold : ("))" ++ " PARTITION BY " : String) = ")) PARTITION BY " := by
    decide
  rw [hfold]

/-- C3 counterexample: the claim's "no duplicates" fails.  mDup is validly
configured — its partitioning key is its own primary-key column, which
resolves — and create_partitioned_model executes a statement whose composite
primary key lists that column twice. -/
theorem c3_counterexample :
    (create_partitioned_model engW [noopSE, noopSE] mDup initEditor).2.realExecuted =
      [(PyVal.str
          "CREATE TABLE \"dup\" (\"id\" integer, PRIMARY KEY (\"id\", \"id\")) PARTITION BY RANGE (\"id\")",
        PyVal.list [])]
    ∧ _partitioning_properties_for_model mDup =
        Except.ok ("range", [PyVal.str "id"])
    ∧ ¬ (mDup.pkName :: [PyVal.str "id"].map pyToString).Nodup :=
  ⟨rfl, rfl, by decide⟩

/-- C3 (amended): for every validly configured partitioned model whose
registered hooks issue nothing for create_model, create_partitioned_model
executes exactly one statement — the base create-table SQL with every
occurrence of " PRIMARY KEY" removed, a composite primary key appended
listing the original primary-key column followed by the partitioning-key
columns in declared order, each identifier quoted, and the partitioning
clause with the upper-cased method — with the original captured parameters
unchanged.  The primary-key column list is duplicate-free provided the
partitioning key does not itself contain the primary-key column and repeats
no name. -/
theorem c3_amended (eng : BaseEngine) (ses : List SideEffect) (m : Model)
    (s : Editor) (sm : String) (ks : List PyVal)
    (hv : _partitioning_properties_for_model m = Except.ok (sm, ks))
    (ht : s.executeTarget = ExecTarget.real)
    (hse : s.sideEffectExecute = ExecTarget.real)
    (hnone : ∀ se ∈ ses, se.create_model m = []) :
    create_partitioned_model eng ses m s =
      (Except.ok (),
       { s with
          interceptedArgs :=
            [PyVal.str (eng.tableSql m).1, PyVal.list (eng.tableSql m).2],
          realExecuted := s.realExecuted ++
            [(PyVal.str (partitionedSql (eng.tableSql m).1 m.pkName sm ks),
              PyVal.list (eng.tableSql m).2)] })
    ∧ partitionedSql (eng.tableSql m).1 m.pkName sm ks =
        pyDropLast (pyReplace (eng.tableSql m).1 " PRIMARY KEY" "") ++
          ", PRIMARY KEY (" ++
          strJoin ", " ((m.pkName :: ks.map pyToString).map quote_name) ++
          ")) PARTITION BY " ++ pyUpper sm ++ " (" ++
          strJoin ", " ((ks.map pyToString).map quote_name) ++ ")"
    ∧ (m.pkName ∉ ks.map pyToString → (ks.map pyToString).Nodup →
        (m.pkName :: ks.map pyToString).Nodup) := by
  have hnil : ∀ x ∈ ses.map (fun se => se.create_model m), x = [] := by
    intro x hx
    rcases List.mem_map.mp hx with ⟨se, hsem, rfl⟩
    exact hnone se hsem
  have hok : hooksOk (ses.map (fun se => se.create_model m)) = true :=
    hooksOk_of_nil _ hnil
  have htr : hookTrace (ses.map (fun se => se.create_model m)) = [] :=
    hookTrace_of_nil _ hnil
  refine ⟨?_, ?_, ?_⟩
  · rw [create_partitioned_model_eq eng ses m s sm ks hv ht hse hok, htr]
    simp
  · obtain ⟨hkey, hkne, hm, hall⟩ := validation_ok_spec m sm ks hv
    cases ks with
    | nil => exact absurd rfl hkne
    | cons k0 krest =>
      simp [partitionedSql, sql_partition_by, strJoin, List.map_map,
        Function.comp_def, String.append_assoc, append_fold_partition_by]
  · intro hnotin hnd
    exact List.nodup_cons.mpr ⟨hnotin, hnd⟩

/-- C3 amended witness: a concrete valid model with key not containing the
primary key yields the single rewritten statement and a duplicate-free
primary-key column list. -/
theorem c3_amended_witness :
    create_partitioned_model engW [noopSE, noopSE] mW initEditor =
      (Except.ok (),
       { initEditor with
          interceptedArgs :=
            [PyVal.str "CREATE TABLE \"parent\" (\"id\" integer PRIMARY KEY)",
             PyVal.list []],
          realExecuted :=
            [(PyVal.str
                "CREATE TABLE \"parent\" (\"id\" integer, PRIMARY KEY (\"id\", \"ts\")) PARTITION BY RANGE (\"ts\")",
              PyVal.list [])] })
    ∧ (["id", "ts"] : List String).Nodup := by
  have h := c3_amended engW [noopSE, noopSE] mW initEditor "range" [PyVal.str "ts"]
    rfl rfl rfl
    (by intro se hmem
        simp only [List.mem_cons, List.not_mem_nil, or_false] at hmem
        rcases hmem with rfl | rfl <;> rfl)
  exact ⟨h.1, h.2.2 (by decide) (by decide)⟩

/-- C4 (amended): every partitioning operation validates first, raising
ImproperlyConfigured on the first violated check in source order — attribute
missing or falsy, method not a recognized member, key not a list,
unresolvable key field — before any SQL is built or executed: on a
validation error each of the four operations returns that error with the
session state unchanged, so zero execute calls occur.  The error identifies
the offending model by its class name and, for the unknown-field check,
carries the entire partitioning key rather than the specific bad field
name. -/
theorem c4_amended (eng : BaseEngine) (ses : List SideEffect) (m : Model)
    (name : String) (fv tv : PyVal) (values : List PyVal) (s : Editor)
    (sm : String) (ks : List PyVal) :
    (truthy m.partitioningMethod = false ∨ truthy m.partitioningKey = false →
      _partitioning_properties_for_model m =
        Except.error (Err.improperlyConfigured (ConfigErr.notSet m.name)))
    ∧ (truthy m.partitioningMethod = true → truthy m.partitioningKey = true →
      methodValue m.partitioningMethod = Option.none →
      _partitioning_properties_for_model m =
        Except.error (Err.improperlyConfigured
          (ConfigErr.badMethod m.name m.partitioningMethod)))
    ∧ (truthy m.partitioningMethod = true → truthy m.partitioningKey = true →
      methodValue m.partitioningMethod = some sm →
      (∀ l : List PyVal, m.partitioningKey ≠ PyVal.list l) →
      _partitioning_properties_for_model m =
        Except.error (Err.improperlyConfigured (ConfigErr.keyNotList m.name)))
    ∧ (truthy m.partitioningMethod = true → truthy m.partitioningKey = true →
      methodValue m.partitioningMethod = some sm →
      m.partitioningKey = PyVal.list ks →
      ks.all (resolvesField m) = false →
      _partitioning_properties_for_model m =
        Except.error (Err.improperlyConfigured
          (ConfigErr.badField m.name (PyVal.list ks))))
    ∧ (∀ e : Err, _partitioning_properties_for_model m = Except.error e →
      create_partitioned_model eng ses m s = (Except.error e, s)
      ∧ add_range_partition m name fv tv s = (Except.error e, s)
      ∧ add_list_partition m name values s = (Except.error e, s)
      ∧ add_default_partition m name s = (Except.error e, s)) := by
  refine ⟨validation_notSet m,
    fun h1 h2 h3 => validation_badMethod m h1 h2 h3,
    fun h1 h2 h3 h4 => validation_keyNotList m h1 h2 sm h3 h4,
    fun h1 h2 h3 h4 h5 => validation_badField m h1 h2 sm h3 ks h4 h5,
    fun e he => partition_ops_error eng ses m name fv tv values s e he⟩

/-- C4 counterexample: the claim's "identifying ... the specific bad field
name" fails.  For mBadField the raised error carries the model's class name
"Foo" (which differs from the table name "foo_table") together with the
entire two-element partitioning key; nothing in it singles out the bad field
"bogus". -/
theorem c4_counterexample :
    _partitioning_properties_for_model mBadField =
      Except.error (Err.improperlyConfigured (ConfigErr.badField "Foo"
        (PyVal.list [PyVal.str "created", PyVal.str "bogus"])))
    ∧ mBadField.name ≠ mBadField.dbTable
    ∧ PyVal.list [PyVal.str "created", PyVal.str "bogus"] ≠ PyVal.str "bogus" :=
  ⟨rfl, by decide, by simp⟩

/-- C4 amended witness: each first-violated check at a concrete model, plus
the error propagating unchanged — with the session state untouched — through
the four operations. -/
theorem c4_amended_witness :
    _partitioning_properties_for_model mNoAttrs =
      Except.error (Err.improperlyConfigured (ConfigErr.notSet "NoAttrs"))
    ∧ _partitioning_properties_for_model mBadMethod =
      Except.error (Err.improperlyConfigured
        (ConfigErr.badMethod "BadMethod" (PyVal.str "hash")))
    ∧ _partitioning_properties_for_model mKeyNotList =
      Except.error (Err.improperlyConfigured (ConfigErr.keyNotList "KeyNotList"))
    ∧ _partitioning_properties_for_model mBadField =
      Except.error (Err.improperlyConfigured (ConfigErr.badField "Foo"
        (PyVal.list [PyVal.str "created", PyVal.str "bogus"])))
    ∧ create_partitioned_model engW [noopSE] mNoAttrs initEditor =
      (Except.error (Err.improperlyConfigured (ConfigErr.notSet "NoAttrs")),
       initEditor)
    ∧ add_range_partition mNoAttrs "p" (PyVal.int 0) (PyVal.int 1) initEditor =
      (Except.error (Err.improperlyConfigured (ConfigErr.notSet "NoAttrs")),
       initEditor)
    ∧ add_list_partition mNoAttrs "p" [] initEditor =
      (Except.error (Err.improperlyConfigured (ConfigErr.notSet "NoAttrs")),
       initEditor)
    ∧ add_default_partition mNoAttrs "p" initEditor =
      (Except.error (Err.improperlyConfigured (ConfigErr.notSet "NoAttrs")),
       initEditor) := by
  have hA := c4_amended engW [noopSE] mNoAttrs "p" (PyVal.int 0) (PyVal.int 1)
    [] initEditor "range" []
  have hB := c4_amended engW [noopSE] mBadMethod "p" (PyVal.int 0) (PyVal.int 1)
    [] initEditor "range" []
  have hC := c4_amended engW [noopSE] mKeyNotList "p" (PyVal.int 0) (PyVal.int 1)
    [] initEditor "range" []
  have hD := c4_amended engW [noopSE] mBadField "p" (PyVal.int 0) (PyVal.int 1)
    [] initEditor "range" [PyVal.str "created", PyVal.str "bogus"]
  have h1 := hA.1 (Or.inl rfl)
  have h2 := hB.2.1 rfl rfl rfl
  have h3 := hC.2.2.1 rfl rfl rfl (fun l h => PyVal.noConfusion h)
  have h4 := hD.2.2.2.1 rfl rfl rfl rfl rfl
  have h5 := hA.2.2.2.2 (Err.improperlyConfigured (ConfigErr.notSet "NoAttrs")) h1
  exact ⟨h1, h2, h3, h4, h5.1, h5.2.1, h5.2.2.1, h5.2.2.2⟩

/-- C5 counterexample: the claim's concrete parameter scenario fails.  With
from_values=[0] and to_values=[100] the executed parameters are the pair of
lists ([0], [100]) — the two arguments exactly as given — not the flat
[0, 100] the claim states. -/
theorem c5_counterexample :
    add_range_partition mW "p1" (PyVal.list [PyVal.int 0])
        (PyVal.list [PyVal.int 100]) initEditor =
      (Except.ok (),
       { initEditor with
          realExecuted :=
            [(PyVal.str
                "CREATE TABLE \"p1\" PARTITION OF \"parent\" FOR VALUES FROM (%s) TO (%s)",
              PyVal.list [PyVal.list [PyVal.int 0], PyVal.list [PyVal.int 100]])] })
    ∧ PyVal.list [PyVal.list [PyVal.int 0], PyVal.list [PyVal.int 100]] ≠
        PyVal.list [PyVal.int 0, PyVal.int 100] :=
  ⟨rfl, by simp⟩

/-- C5 (amended): add_range_partition on a validly configured model builds
exactly the claimed statement — CREATE TABLE quoted-name PARTITION OF
quoted-parent FOR VALUES FROM, TO, with two literal placeholders — and
passes the pair (from_values, to_values) as bound parameters, exactly as the
arguments were given and never interpolated into the statement string.
Scalar arguments 0 and 100 therefore yield parameters [0, 100]; list
arguments [0] and [100] yield ([0], [100]). -/
theorem c5_amended (m : Model) (name : String) (fv tv : PyVal) (s : Editor)
    (sm : String) (ks : List PyVal)
    (hv : _partitioning_properties_for_model m = Except.ok (sm, ks))
    (ht : s.executeTarget = ExecTarget.real) :
    add_range_partition m name fv tv s =
      (Except.ok (),
       { s with
          realExecuted := s.realExecuted ++
            [(PyVal.str (sql_add_range_partition (quote_name name)
                (quote_name m.dbTable) "%s" "%s"),
              PyVal.list [fv, tv])] })
    ∧ (pctCount name = 0 → pctCount m.dbTable = 0 →
        pctCount (sql_add_range_partition (quote_name name)
          (quote_name m.dbTable) "%s" "%s") = 2) := by
  refine ⟨add_range_ok m name fv tv s sm ks hv ht, ?_⟩
  intro h1 h2
  have c1 : pctCount "CREATE TABLE " = 0 := rfl
  have c2 : pctCount " PARTITION OF " = 0 := rfl
  have c3 : pctCount " FOR VALUES FROM (" = 0 := rfl
  have c4 : pctCount ") TO (" = 0 := rfl
  have c5 : pctCount ")" = 0 := rfl
  have c6 : pctCount "%s" = 1 := rfl
  simp [sql_add_range_partition, pctCount_append, pctCount_quote, h1, h2,
    c1, c2, c3, c4, c5, c6]

/-- C5 amended witness: scalar bounds 0 and 100 give the claimed SQL with
executed parameters [0, 100], and the statement has exactly two
placeholders. -/
theorem c5_amended_witness :
    add_range_partition mW "p1" (PyVal.int 0) (PyVal.int 100) initEditor =
      (Except.ok (),
       { initEditor with
          realExecuted :=
            [(PyVal.str
                "CREATE TABLE \"p1\" PARTITION OF \"parent\" FOR VALUES FROM (%s) TO (%s)",
              PyVal.list [PyVal.int 0, PyVal.int 100])] })
    ∧ pctCount
        "CREATE TABLE \"p1\" PARTITION OF \"parent\" FOR VALUES FROM (%s) TO (%s)"
        = 2 := by
  have h := c5_amended mW "p1" (PyVal.int 0) (PyVal.int 100) initEditor
    "range" [PyVal.str "ts"] rfl rfl
  exact ⟨h.1, h.2 rfl rfl⟩

/-- C8: for every list of values, add_list_partition on a validly configured
model builds the CREATE TABLE partition-of statement whose VALUES IN segment
is the comma-join of one placeholder per value — so, when the identifiers
contain no percent character, the whole statement carries exactly
values.length placeholders — and executes it with parameters equal to the
values in their given order. -/
theorem c8_list_partition (m : Model) (name : String) (values : List PyVal)
    (s : Editor) (sm : String) (ks : List PyVal)
    (hv : _partitioning_properties_for_model m = Except.ok (sm, ks))
    (ht : s.executeTarget = ExecTarget.real) :
    add_list_partition m name values s =
      (Except.ok (),
       { s with
          realExecuted := s.realExecuted ++
            [(PyVal.str (sql_add_list_partition (quote_name name)
                (quote_name m.dbTable)
                (strJoin "," (List.replicate values.length "%s"))),
              PyVal.list values)] })
    ∧ (pctCount name = 0 → pctCount m.dbTable = 0 →
        pctCount (sql_add_list_partition (quote_name name)
          (quote_name m.dbTable)
          (strJoin "," (List.replicate values.length "%s"))) = values.length) :=
  ⟨add_list_ok m name values s sm ks hv ht,
   fun h1 h2 => pctCount_list_sql name m.dbTable values.length h1 h2⟩

/-- C8 witness: a two-value list partition yields two placeholders and the
two parameters in their given order. -/
theorem c8_list_partition_witness :
    add_list_partition mList "p1" [PyVal.str "a", PyVal.str "b"] initEditor =
      (Except.ok (),
       { initEditor with
          realExecuted :=
            [(PyVal.str
                "CREATE TABLE \"p1\" PARTITION OF \"ltable\" FOR VALUES IN (%s,%s)",
              PyVal.list [PyVal.str "a", PyVal.str "b"])] })
    ∧ pctCount "CREATE TABLE \"p1\" PARTITION OF \"ltable\" FOR VALUES IN (%s,%s)"
        = 2 := by
  have h := c8_list_partition mList "p1" [PyVal.str "a", PyVal.str "b"]
    initEditor "list" [PyVal.str "cat"] rfl rfl
  exact ⟨h.1, h.2 rfl rfl⟩

/-- C10: when partitioning_key is present but an empty list, the key is
falsy, so every partitioning operation fails the presence check first: it
raises the ImproperlyConfigured error that reports the partitioning_method
and partitioning_key attributes as not set — a different error from the
key-shape one — and returns with the session state unchanged, so no SQL is
executed. -/
theorem c10_empty_key (eng : BaseEngine) (ses : List SideEffect) (m : Model)
    (name : String) (fv tv : PyVal) (values : List PyVal) (s : Editor)
    (hk : m.partitioningKey = PyVal.list []) :
    _partitioning_properties_for_model m =
      Except.error (Err.improperlyConfigured (ConfigErr.notSet m.name))
    ∧ create_partitioned_model eng ses m s =
        (Except.error (Err.improperlyConfigured (ConfigErr.notSet m.name)), s)
    ∧ add_range_partition m name fv tv s =
        (Except.error (Err.improperlyConfigured (ConfigErr.notSet m.name)), s)
    ∧ add_list_partition m name values s =
        (Except.error (Err.improperlyConfigured (ConfigErr.notSet m.name)), s)
    ∧ add_default_partition m name s =
        (Except.error (Err.improperlyConfigured (ConfigErr.notSet m.name)), s)
    ∧ ConfigErr.notSet m.name ≠ ConfigErr.keyNotList m.name := by
  have hfalse : truthy m.partitioningKey = false := by rw [hk]; rfl
  have hv := validation_notSet m (Or.inr hfalse)
  have hops := partition_ops_error eng ses m name fv tv values s _ hv
  exact ⟨hv, hops.1, hops.2.1, hops.2.2.1, hops.2.2.2, by simp⟩

/-- C10 witness: the empty-key model fails the presence check on a concrete
operation with the session unchanged. -/
theorem c10_empty_key_witness :
    _partitioning_properties_for_model mEmptyKey =
      Except.error (Err.improperlyConfigured (ConfigErr.notSet "Empty"))
    ∧ add_default_partition mEmptyKey "p" initEditor =
        (Except.error (Err.improperlyConfigured (ConfigErr.notSet "Empty")),
         initEditor) := by
  have h := c10_empty_key engW [noopSE] mEmptyKey "p" (PyVal.int 0)
    (PyVal.int 1) [] initEditor rfl
  exact ⟨h.1, h.2.2.2.2.1⟩

end Psqlextra
